import Mathlib

/-!
Verification of the `claif_cod` process-transport and retry subsystem.

The definitions below are a shallow embedding of the Python sources:
  * `src/claif_cod/types.py`      — data model (blocks, messages, options)
  * `src/claif_cod/transport.py`  — `CodexTransport`: command building,
    line-oriented output parsing, and the retry loop of `send_query`.

Python runtime behaviour that the transport delegates to its environment
(the filesystem, `shlex.split`, `json.loads`, the spawned process) is
passed in as explicit oracle parameters, so every definition stays
executable and every claim can be evaluated on concrete inputs.
-/

namespace ClaifCod

/-! ## Data model, from `src/claif_cod/types.py` -/

/-- `TextBlock` dataclass (types.py).  The constant `type="output_text"`
discriminator is carried by the inductive tag of `ContentBlock` instead. -/
structure TextBlock where
  text : String := ""
deriving DecidableEq, Repr

/-- `CodeBlock` dataclass (types.py). -/
structure CodeBlock where
  language : String := ""
  content : String := ""
deriving DecidableEq, Repr

/-- `ErrorBlock` dataclass (types.py). -/
structure ErrorBlock where
  error_message : String := ""
deriving DecidableEq, Repr

/-- `ContentBlock = Union[TextBlock, CodeBlock, ErrorBlock]` (types.py). -/
inductive ContentBlock
  | text (b : TextBlock)
  | code (b : CodeBlock)
  | error (b : ErrorBlock)
deriving DecidableEq, Repr

/-- `CodexMessage` dataclass (types.py): a role string plus content blocks. -/
structure CodexMessage where
  role : String
  content : List ContentBlock
deriving DecidableEq, Repr

/-- `ResultMessage` dataclass (types.py).  The constant `type="result"`
field is omitted; the float `duration` is modelled as a rational.  The
`model` and `token_count` fields are never set by the transport and are
omitted. -/
structure ResultMessage where
  duration : Option ℚ := none
  error : Bool := false
  message : Option String := none
  session_id : Option String := none
deriving DecidableEq, Repr

/-- `claif.common.MessageRole` as used by `to_claif_message`. -/
inductive MessageRole
  | assistant
  | user
deriving DecidableEq, Repr

/-- `claif.common.Message`: the normalized role + flattened content. -/
structure Message where
  role : MessageRole
  content : String
deriving DecidableEq, Repr

/-- Per-block rendering inside `CodexMessage.to_claif_message` (types.py,
the `isinstance` chain appending to `text_parts`). -/
def renderBlock : ContentBlock → String
  | .text tb => tb.text
  | .code cb => "``` " ++ cb.language ++ "\n" ++ cb.content ++ "\n```"
  | .error eb => "Error: " ++ eb.error_message

/-- `CodexMessage.to_claif_message` (types.py lines 129-154): renders each
block, joins with a newline (empty list gives the empty string), and maps
the role string `"assistant"` to `MessageRole.ASSISTANT`, everything else
to `MessageRole.USER`. -/
def to_claif_message (m : CodexMessage) : Message :=
  let text_parts := m.content.map renderBlock
  let content := if text_parts.isEmpty then "" else String.intercalate "\n" text_parts
  { role := if m.role == "assistant" then .assistant else .user
    content := content }

/-- Python truthiness of an optional string (`None` and `""` are falsy). -/
def pyTruthy : Option String → Bool
  | none => false
  | some s => !(s == "")

/-- Python truthiness of an optional list (`None` and `[]` are falsy). -/
def pyTruthyList : Option (List String) → Bool
  | none => false
  | some l => !l.isEmpty

/-- `CodexOptions` dataclass (types.py).  Fields that the transport never
reads (temperature, max_tokens, top_p, verbose) are omitted; `working_dir`
and `cwd` are string-or-None (the `Path` alternative is collapsed to its
string form); `retry_delay` is modelled as a rational. -/
structure CodexOptions where
  model : String := "o4-mini"
  auto_approve_everything : Bool := false
  full_auto : Bool := false
  action_mode : String := "review"
  working_dir : Option String := none
  cwd : Option String := none
  timeout : Option Int := none
  exec_path : Option String := none
  images : Option (List String) := none
  retry_count : Int := 3
  retry_delay : ℚ := 1
  no_retry : Bool := false
deriving DecidableEq, Repr

/-- `CodexOptions.__post_init__` (types.py lines 107-113):
`if self.cwd and not self.working_dir: self.working_dir = self.cwd`. -/
def post_init (o : CodexOptions) : CodexOptions :=
  if pyTruthy o.cwd && !pyTruthy o.working_dir then
    { o with working_dir := o.cwd }
  else o

/-- The effective working directory used by `_execute_async`
(transport.py line 222): `options.working_dir or options.cwd`. -/
def effective_cwd (o : CodexOptions) : Option String :=
  if pyTruthy o.working_dir then o.working_dir else o.cwd

/-! ## JSON values

The transport feeds each stdout line to `json.loads`.  We model decoded
JSON values by the inductive `Json`; the decoder itself (Python's `json`
stdlib, external to this repository) is passed to the parser as an oracle
`String → Option Json`, `none` standing for a `json.JSONDecodeError`. -/

/-- A decoded JSON value.  Numbers are irrelevant to every claim and are
collapsed to integers. -/
inductive Json
  | null
  | bool (b : Bool)
  | num (n : Int)
  | str (s : String)
  | arr (elems : List Json)
  | obj (fields : List (String × Json))

/-- Dictionary lookup on the fields of a decoded JSON object
(`dict.get(k)` / `d[k]`).  `json.loads` lets a repeated key overwrite an
earlier one, hence the last matching entry wins. -/
def jLookup (fields : List (String × Json)) (key : String) : Option Json :=
  ((fields.filter (fun kv => kv.1 == key)).map (fun kv => kv.2)).getLast?

/-- `d.get(key, dflt)` restricted to string results, as used for the
`text` / `language` / `content` / `error_message` / `role` fields.  Python
would return a non-string value unchanged; no claim involves a non-string
value in these fields, and downstream string operations (`"\n".join`)
would reject one, so a non-string value is collapsed to the default. -/
def jStrD (fields : List (String × Json)) (key dflt : String) : String :=
  match jLookup fields key with
  | some (.str s) => s
  | _ => dflt

/-- Python exceptions that the parsing loop of `_execute_async` can raise
on duck-typed access to a decoded record. -/
inductive PyExc
  | attributeError
  | typeError
deriving DecidableEq, Repr

/-! ## Output parsing, from `CodexTransport._execute_async`
(transport.py lines 250-280) -/

/-- One step of `for block_data in data["content"]`
(transport.py lines 262-273): dispatch on `block_data.get("type")`.
A recognized tag builds the matching block; an unrecognized tag appends
nothing; a non-dict element raises `AttributeError` from `.get`. -/
def parseBlock : Json → Except PyExc (Option ContentBlock)
  | .obj fields =>
    match jLookup fields "type" with
    | some (.str "output_text") => .ok (some (.text ⟨jStrD fields "text" ""⟩))
    | some (.str "code") =>
        .ok (some (.code ⟨jStrD fields "language" "", jStrD fields "content" ""⟩))
    | some (.str "error") => .ok (some (.error ⟨jStrD fields "error_message" ""⟩))
    | _ => .ok none
  | _ => .error .attributeError

/-- The whole `for block_data in data["content"]` loop, accumulating
`content_blocks` (transport.py lines 260-273). -/
def parseBlocks : List Json → Except PyExc (List ContentBlock)
  | [] => .ok []
  | b :: rest => do
    let ob ← parseBlock b
    let tail ← parseBlocks rest
    match ob with
    | some cb => .ok (cb :: tail)
    | none => .ok tail

/-- Python iteration over `data["content"]` (transport.py line 262): a
list yields its elements, a string yields its one-character substrings, a
dict yields its keys, and the remaining JSON values are not iterable. -/
def contentElems : Json → Except PyExc (List Json)
  | .arr elems => .ok elems
  | .str s => .ok (s.toList.map (fun c => Json.str (String.singleton c)))
  | .obj fields => .ok (fields.map (fun kv => Json.str kv.1))
  | _ => .error .typeError

/-- `_execute_async`'s treatment of one non-empty stripped stdout line
(transport.py lines 256-280).  `decoded` is the oracle result of
`json.loads line` (`none` = `JSONDecodeError`).  A record with
`type == "message"` and a `content` key is mapped to a `CodexMessage`
whose blocks come from `parseBlocks` — emitted even when that list is
empty; every other decode result falls back to a single plain-text
`CodexMessage`; a non-dict decode result raises `AttributeError` from
`data.get`. -/
def processLine (decoded : Option Json) (line : String) :
    Except PyExc (List CodexMessage) :=
  match decoded with
  | none => .ok [⟨"assistant", [.text ⟨line⟩]⟩]
  | some (.obj fields) =>
    match jLookup fields "type", jLookup fields "content" with
    | some (.str "message"), some contentVal => do
      let elems ← contentElems contentVal
      let blocks ← parseBlocks elems
      .ok [⟨jStrD fields "role" "assistant", blocks⟩]
    | _, _ => .ok [⟨"assistant", [.text ⟨line⟩]⟩]
  | some _ => .error .attributeError

/-! ## Exceptions and attempt outcomes -/

/-- The Python exception classes that `send_query` distinguishes
(transport.py lines 149-154): the four entries of `retry_exceptions`
plus a catch-all for every other exception class. -/
inductive ExcType
  | timeoutExpired
  | transportError
  | connectionError
  | asyncioTimeout
  | otherError
deriving DecidableEq, Repr

/-- An exception value: its class tag and its `str(e)` message. -/
structure Exc where
  ty : ExcType
  message : String
deriving DecidableEq, Repr

/-- `retry_if_exception_type(retry_exceptions)` (transport.py lines
149-154, 165): retry exactly when the raised exception is an instance of
`subprocess.TimeoutExpired`, `TransportError`, `ConnectionError` or
`asyncio.TimeoutError`. -/
def retryableType : ExcType → Bool
  | .otherError => false
  | _ => true

/-- A message yielded by the transport's async generators: either a
`CodexMessage` or a `ResultMessage`. -/
inductive Msg
  | content (m : CodexMessage)
  | result (r : ResultMessage)
deriving DecidableEq, Repr

/-- The observable behaviour of one `_execute_async` call: the messages
it yields, in order, followed by an optionally raised exception. -/
structure AttemptOutcome where
  msgs : List Msg
  exc : Option Exc := none
deriving DecidableEq, Repr

/-! ## `CodexTransport._execute_async` (transport.py lines 199-339) -/

/-- Environment-dependent behaviour of one child-process invocation,
passed to `execute_async` as an oracle:
  * `findCliError` — `some m` when `_find_cli` raises
    `TransportError("Codex CLI executable not found: " ++ m)`
    (transport.py lines 448-454, reached from `_build_command`);
  * `spawnError` — an exception raised by `create_subprocess_exec`;
  * `lines` — the raw stdout lines delivered by `readline`;
  * `decode` — the `json.loads` oracle;
  * `timedOut` — whether `asyncio.wait_for(process.wait(), ...)` timed
    out;
  * `returncode`, `stderr` — the exit status and remaining stderr;
  * `duration` — the measured wall-clock duration. -/
structure ProcBehavior where
  findCliError : Option String := none
  spawnError : Option Exc := none
  lines : List String := []
  decode : String → Option Json := fun _ => none
  timedOut : Bool := false
  returncode : Int := 0
  stderr : String := ""
  duration : ℚ := 0

/-- Stand-in for Python's `str(e)` on a duck-typing exception raised in
the parsing loop; no claim depends on this text. -/
def pyExcMessage : PyExc → String
  | .attributeError => "AttributeError"
  | .typeError => "TypeError"

/-- Python's `str.strip()` with no argument: drop leading and trailing
whitespace (modelled over the ASCII whitespace classes of
`Char.isWhitespace`; Python also strips some further Unicode whitespace,
which no claim exercises). -/
def pyStrip (s : String) : String :=
  ⟨(((s.data.dropWhile Char.isWhitespace).reverse.dropWhile
      Char.isWhitespace).reverse)⟩

/-- The stdout loop of `_execute_async` (transport.py lines 250-280):
each raw line is stripped, empty lines are skipped, and each remaining
line is decoded and converted by `processLine`; messages produced before
a raised exception have already been yielded. -/
def processLines (decode : String → Option Json) : List String → List Msg × Option PyExc
  | [] => ([], none)
  | raw :: rest =>
    let line := pyStrip raw
    if line == "" then processLines decode rest
    else
      match processLine (decode line) line with
      | .error e => ([], some e)
      | .ok ms =>
        let (tailMs, exc) := processLines decode rest
        (ms.map Msg.content ++ tailMs, exc)

/-- `options.timeout if options.timeout else 300` (transport.py line
283): Python truthiness sends both `None` and `0` to the default. -/
def timeoutSeconds (o : CodexOptions) : Int :=
  match o.timeout with
  | some t => if t == 0 then 300 else t
  | none => 300

/-- Wrapping of a non-`TransportError` exception at the end of
`_execute_async` (transport.py lines 334-339). -/
def wrapExc (e : Exc) : Exc :=
  if e.ty == .transportError then e
  else ⟨.transportError, "Failed to execute Codex command: " ++ e.message⟩

/-- `CodexTransport._execute_async` as a function of the options and the
process-behaviour oracle: `_build_command` runs first (and may raise the
`_find_cli` failure), then the process is spawned, stdout is parsed line
by line, then the timeout, the exit status, and finally the success
`ResultMessage` (transport.py lines 199-339). -/
def execute_async (o : CodexOptions) (pb : ProcBehavior) : AttemptOutcome :=
  match pb.findCliError with
  | some m => ⟨[], some ⟨.transportError, "Codex CLI executable not found: " ++ m⟩⟩
  | none =>
    match pb.spawnError with
    | some e => ⟨[], some (wrapExc e)⟩
    | none =>
      let (ms, pyexc) := processLines pb.decode pb.lines
      match pyexc with
      | some e => ⟨ms, some (wrapExc ⟨.otherError, pyExcMessage e⟩)⟩
      | none =>
        if pb.timedOut then
          ⟨ms, some ⟨.transportError,
            "Command timed out after " ++ toString (timeoutSeconds o) ++ "s"⟩⟩
        else if pb.returncode == 0 then
          ⟨ms ++ [.result { duration := some pb.duration, session_id := some "codex" }], none⟩
        else
          ⟨ms, some ⟨.transportError,
            "Codex command failed (exit code " ++ toString pb.returncode ++ ")"
              ++ (if pyStrip pb.stderr == "" then "" else ": " ++ pyStrip pb.stderr)⟩⟩

/-! ## `CodexTransport._build_command` (transport.py lines 341-403) -/

/-- The leading argv element(s) (transport.py lines 360-370).
`isFile` is the filesystem oracle for `Path(cli_path).exists() and
Path(cli_path).is_file()`; `split` is the `shlex.split` oracle used for a
non-file value containing a space. -/
def commandHead (isFile : Bool) (split : String → List String)
    (cli_path : String) : List String :=
  if isFile then [cli_path]
  else if cli_path.contains ' ' then split cli_path
  else [cli_path]

/-- `"-i" path` pairs, one per image, preserving order
(transport.py lines 396-398). -/
def imageArgs (images : List String) : List String :=
  (images.map (fun p => ["-i", p])).flatten

/-- `CodexTransport._build_command` (transport.py lines 341-403) as a
sequence of conditional appends, in source order: model flag, working
directory, action mode, auto-approve, full-auto, the unconditional `-q`,
the image flags, and the prompt as the final element. -/
def build_command (isFile : Bool) (split : String → List String)
    (cli_path prompt : String) (o : CodexOptions) : List String :=
  let command := commandHead isFile split cli_path
  let command := if o.model == "" then command else command ++ ["-m", o.model]
  let command := match o.working_dir with
    | some wd => if wd == "" then command else command ++ ["-w", wd]
    | none => command
  let command := if o.action_mode == "" then command else command ++ ["-a", o.action_mode]
  let command := if o.auto_approve_everything then
      command ++ ["--dangerously-auto-approve-everything"] else command
  let command := if o.full_auto then command ++ ["--full-auto"] else command
  let command := command ++ ["-q"]
  let command := match o.images with
    | some imgs => if imgs.isEmpty then command else command ++ imageArgs imgs
    | none => command
  command ++ [prompt]

/-! ## `CodexTransport.send_query` (transport.py lines 110-197)

`send_query` is an async generator; we model one call as a function of
the options and of the sequence of `AttemptOutcome`s that successive
`_execute_async` calls would produce.  Its observable behaviour is the
list of yielded messages, the optionally escaping exception, the number
of `_execute_async` calls made, and the back-off sleeps taken. -/

/-- Observable behaviour of one `send_query` call. -/
structure SendResult where
  yielded : List Msg
  raised : Option Exc := none
  attemptsUsed : ℕ := 0
  delays : List ℚ := []
deriving DecidableEq, Repr

/-- `ResultMessage(error=True, message=s, session_id="codex")` as yielded
by the two error paths of `send_query` (transport.py lines 140-144 and
193-197). -/
def errorResultMsg (s : String) : Msg :=
  .result { error := true, message := some s, session_id := some "codex" }

/-- Python's builtin `max` of two numbers (first argument on ties). -/
def qMax (a b : ℚ) : ℚ := if a < b then b else a

/-- Python's builtin `min` of two numbers (first argument on ties). -/
def qMin (a b : ℚ) : ℚ := if b < a then b else a

/-- tenacity's `wait_exponential(multiplier, max, exp_base := 2, min)`
evaluated after the failure of attempt `attemptNumber`:
`max(max(0, min), min(multiplier * 2^(attemptNumber - 1), max))`. -/
def waitExponential (multiplier minv maxv : ℚ) (attemptNumber : ℕ) : ℚ :=
  qMax (qMax 0 minv) (qMin (multiplier * 2 ^ (attemptNumber - 1)) maxv)

/-- The back-off sleep of `send_query` before the attempt after
`attemptNumber` (transport.py line 164):
`wait_exponential(multiplier=retry_delay, min=retry_delay,
max=retry_delay * 10)`. -/
def sendQueryWait (retry_delay : ℚ) (attemptNumber : ℕ) : ℚ :=
  waitExponential retry_delay retry_delay (retry_delay * 10) attemptNumber

/-- The exhaustion message of `send_query` (transport.py line 195):
`f"Codex query failed after {retry_count} retries: {last_error!s}"`. -/
def exhaustedMsg (retry_count : ℕ) (cause : String) : String :=
  "Codex query failed after " ++ toString retry_count ++ " retries: " ++ cause

/-- The `AsyncRetrying` loop of `send_query` (transport.py lines
156-197) with `stop_after_attempt(retry_count + 1)`,
`wait_exponential` as above, `retry_if_exception_type(retry_exceptions)`
and `reraise=False`; `n` is the 1-based number of the current attempt.
Per attempt: the messages of `_execute_async` are yielded as they
arrive; an attempt that yields nothing and raises nothing raises
`TransportError("No response received from Codex CLI")` (lines 180-182);
a retryable exception either sleeps and retries or — once
`attempt_number ≥ retry_count + 1` — surfaces as `RetryError`, which the
`except` turns into one error `ResultMessage` (lines 188-197); a
non-retryable exception is re-raised out of `send_query` unchanged.  An
empty attempt list cannot arise in the source (each iteration runs
`_execute_async`); it is mapped to the degenerate result with no attempt
recorded. -/
def runRetry (retry_count : ℕ) (retry_delay : ℚ) :
    List AttemptOutcome → ℕ → SendResult
  | [], n => ⟨[], none, n - 1, []⟩
  | a :: rest, n =>
    match a.exc with
    | none =>
      if a.msgs.isEmpty then
        -- `raise TransportError("No response received from Codex CLI")`
        if retry_count + 1 ≤ n then
          ⟨[errorResultMsg (exhaustedMsg retry_count "No response received from Codex CLI")],
            none, n, []⟩
        else
          let r := runRetry retry_count retry_delay rest (n + 1)
          ⟨r.yielded, r.raised, r.attemptsUsed, sendQueryWait retry_delay n :: r.delays⟩
      else ⟨a.msgs, none, n, []⟩
    | some e =>
      if retryableType e.ty then
        if retry_count + 1 ≤ n then
          ⟨a.msgs ++ [errorResultMsg (exhaustedMsg retry_count e.message)], none, n, []⟩
        else
          let r := runRetry retry_count retry_delay rest (n + 1)
          ⟨a.msgs ++ r.yielded, r.raised, r.attemptsUsed,
            sendQueryWait retry_delay n :: r.delays⟩
      else ⟨a.msgs, some e, n, []⟩

/-- `CodexTransport.send_query` (transport.py lines 110-197): when
`no_retry` is set or `retry_count ≤ 0`, one single attempt runs and a
raised exception becomes one error `ResultMessage` (lines 134-145);
otherwise the `AsyncRetrying` loop runs. -/
def sendQuery (o : CodexOptions) (attempts : List AttemptOutcome) : SendResult :=
  if o.no_retry = true ∨ o.retry_count ≤ 0 then
    match attempts with
    | [] => ⟨[], none, 0, []⟩
    | a :: _ =>
      match a.exc with
      | none => ⟨a.msgs, none, 1, []⟩
      | some e => ⟨a.msgs ++ [errorResultMsg e.message], none, 1, []⟩
  else
    runRetry o.retry_count.toNat o.retry_delay attempts 1

/-! ## Spec-side retry classifier

The spec (§4.6) describes a message-substring classifier for retry
eligibility.  The transport's code contains no such classifier (it
dispatches on exception classes), so the following definitions are built
from the spec's words alone, to be compared with `retryableType`. -/

/-- Whether `needle` occurs at the head of `hay`. -/
def startsWithChars : List Char → List Char → Bool
  | _, [] => true
  | [], _ :: _ => false
  | a :: as, b :: bs => a == b && startsWithChars as bs

/-- Whether `needle` occurs contiguously anywhere in `hay`. -/
def containsChars : List Char → List Char → Bool
  | [], needle => needle.isEmpty
  | a :: as, needle => startsWithChars (a :: as) needle || containsChars as needle

/-- Case-insensitive substring test on strings (lower-casing character by
character, as `str.lower()` does for ASCII). -/
def strContainsCI (hay needle : String) : Bool :=
  containsChars (hay.toList.map Char.toLower) (needle.toList.map Char.toLower)

/-- Modelled from the spec: the "known retryable substrings (timeout,
connection/network terms, quota/rate-limit terms, HTTP 429/502/503)" of
§4.6, which the code nowhere contains. -/
def spec_retryableSubstrings : List String :=
  ["timeout", "timed out", "connection", "network", "quota",
   "rate limit", "rate-limit", "rate_limit", "429", "502", "503"]

/-- Modelled from the spec: "inspect the failure's message for known
retryable substrings … case-insensitively" (§4.6). -/
def spec_isRetryableMessage (m : String) : Bool :=
  spec_retryableSubstrings.any (fun sub => strContainsCI m sub)

/-! ## General lemmas about the retry loop -/

/-- `(if c then X else X ++ Y) = X ++ (if c then [] else Y)`. -/
theorem ite_skip_append {c : Prop} [Decidable c] (X Y : List String) :
    (if c then X else X ++ Y) = X ++ (if c then [] else Y) := by
  split <;> simp

/-- `Except.ok a >>= f` reduces to `f a`. -/
theorem exceptBind_ok {e a b : Type} (x : a) (f : a → Except e b) :
    (Except.ok x : Except e a) >>= f = f x := rfl

/-- `(if c then X ++ Y else X) = X ++ (if c then Y else [])`. -/
theorem ite_append_skip {c : Prop} [Decidable c] (X Y : List String) :
    (if c then X ++ Y else X) = X ++ (if c then Y else []) := by
  split <;> simp

/-- The retry loop never runs more than `retry_count + 1` attempts
(`stop_after_attempt(retry_count + 1)`). -/
theorem runRetry_attemptsUsed_le (k : ℕ) (d : ℚ) :
    ∀ (atts : List AttemptOutcome) (n : ℕ), n ≤ k + 1 →
      (runRetry k d atts n).attemptsUsed ≤ k + 1
  | [], n, hn => by
    unfold runRetry
    simpa using Nat.le_trans (Nat.sub_le n 1) hn
  | a :: rest, n, hn => by
    unfold runRetry
    rcases hexc : a.exc with _ | e
    · cases hm : a.msgs.isEmpty
      · simpa [hexc, hm] using hn
      · by_cases hkn : k + 1 ≤ n
        · simpa [hexc, hm, hkn] using hn
        · simpa [hexc, hm, hkn] using
            runRetry_attemptsUsed_le k d rest (n + 1) (by omega)
    · by_cases hre : retryableType e.ty
      · by_cases hkn : k + 1 ≤ n
        · simpa [hexc, hre, hkn] using hn
        · simpa [hexc, hre, hkn] using
            runRetry_attemptsUsed_le k d rest (n + 1) (by omega)
      · simpa [hexc, hre] using hn

/-- The sleeps recorded by the retry loop starting at attempt `n` are
exactly `sendQueryWait d n, sendQueryWait d (n+1), …`. -/
theorem runRetry_delays_eq (k : ℕ) (d : ℚ) :
    ∀ (atts : List AttemptOutcome) (n : ℕ),
      (runRetry k d atts n).delays =
        (List.range (runRetry k d atts n).delays.length).map
          (fun i => sendQueryWait d (n + i))
  | [], n => by simp [runRetry]
  | a :: rest, n => by
    have hshift : ∀ L : ℕ,
        (List.range (L + 1)).map (fun i => sendQueryWait d (n + i)) =
          sendQueryWait d n ::
            (List.range L).map (fun i => sendQueryWait d (n + 1 + i)) := by
      intro L
      have hfun : ((fun i => sendQueryWait d (n + i)) ∘ Nat.succ) =
          fun i => sendQueryWait d (n + 1 + i) := by
        funext i
        simp only [Function.comp_apply, Nat.succ_eq_add_one]
        rw [show n + (i + 1) = n + 1 + i from by omega]
      rw [List.range_succ_eq_map]
      simp only [List.map_cons, List.map_map, Nat.add_zero, hfun]
    have IH := runRetry_delays_eq k d rest (n + 1)
    unfold runRetry
    rcases hexc : a.exc with _ | e
    · cases hm : a.msgs.isEmpty
      · simp
      · by_cases hkn : k + 1 ≤ n
        · simp [hkn]
        · simp only [if_neg hkn, if_true, List.length_cons, hshift]
          exact congrArg (fun l => sendQueryWait d n :: l) IH
    · by_cases hre : retryableType e.ty = true
      · by_cases hkn : k + 1 ≤ n
        · simp [hre, hkn]
        · simp only [hre, if_true, if_neg hkn, List.length_cons, hshift]
          exact congrArg (fun l => sendQueryWait d n :: l) IH
      · simp [Bool.of_not_eq_true hre]

/-! # Claims -/

/-- **C1 (counterexample).** The claim says retry eligibility is decided
by inspecting the failure's message for retryable substrings, and that a
non-matching failure — in particular executable-not-found — is fatal and
surfaced immediately as a single error `ResultMessage` without consuming
further attempts.  On the code, the executable-not-found failure is a
`TransportError`, whose *class* is in `retry_exceptions`: with the
default options (`retry_count = 3`) it consumes all 4 attempts before
one error `ResultMessage` appears, although its message contains none of
the spec's retryable substrings. -/
theorem C1_counterexample :
    spec_isRetryableMessage "Codex CLI executable not found: codex" = false ∧
    (sendQuery {} (List.replicate 4
      ⟨[], some ⟨.transportError, "Codex CLI executable not found: codex"⟩⟩)).attemptsUsed
        = 4 ∧
    (sendQuery {} (List.replicate 4
      ⟨[], some ⟨.transportError, "Codex CLI executable not found: codex"⟩⟩)).yielded =
      [errorResultMsg
        "Codex query failed after 3 retries: Codex CLI executable not found: codex"] :=
  ⟨by decide, rfl, rfl⟩

/-- **C1 (amended).** Retry eligibility in `send_query` is decided by
the failure's exception class, not its message: instances of
`TimeoutExpired`, `TransportError`, `ConnectionError` and
`asyncio.TimeoutError` are retried (so an executable-not-found failure,
raised as `TransportError`, is retried), while a failure of any other
class is re-raised out of `send_query` unchanged — as a thrown
exception, not a `ResultMessage` — without consuming further
attempts. -/
theorem C1_retry_by_exception_class (o : CodexOptions) (msgs : List Msg) (e : Exc)
    (rest : List AttemptOutcome) (hnr : o.no_retry = false)
    (hrc : 1 ≤ o.retry_count) (hty : retryableType e.ty = false) :
    sendQuery o (⟨msgs, some e⟩ :: rest) = ⟨msgs, some e, 1, []⟩ ∧
    retryableType .transportError = true := by
  refine ⟨?_, rfl⟩
  unfold sendQuery
  rw [if_neg (by
    rintro (h | h)
    · simp [hnr] at h
    · omega)]
  unfold runRetry
  simp [hty]

/-- Witness for `C1_retry_by_exception_class` at a concrete
non-retryable failure (a `ValueError`-like class). -/
theorem C1_witness :
    sendQuery {} [⟨[], some ⟨.otherError, "ValueError: boom"⟩⟩] =
      ⟨[], some ⟨.otherError, "ValueError: boom"⟩, 1, []⟩ ∧
    retryableType .transportError = true :=
  C1_retry_by_exception_class {} [] ⟨.otherError, "ValueError: boom"⟩ [] rfl
    (by decide) rfl

/-- **C2 (counterexample).** The claim says an attempt whose process
exits 0 with zero content events is classified as a failure ("no
response received") and retried or surfaced as an error.  On the code,
`_execute_async` yields a success `ResultMessage` after every clean
exit, so such an attempt yields one message, passes the `if not results`
check, and `send_query` reports success after a single attempt: with no
stdout lines and exit status 0, the run ends with `error = false` and no
retry. -/
theorem C2_counterexample :
    execute_async {} {} =
      ⟨[.result { duration := some 0, session_id := some "codex" }], none⟩ ∧
    sendQuery {} (List.replicate 4 (execute_async {} {})) =
      ⟨[.result { duration := some 0, session_id := some "codex" }], none, 1, []⟩ :=
  ⟨rfl, rfl⟩

/-- **C2 (amended).** The "no response" check of `send_query` fires only
when an attempt yields no messages at all; because `_execute_async`
yields a success `ResultMessage` after every clean exit, an attempt that
completes with exit status 0 — zero content events included — always
yields at least one message, raises nothing, and is treated by the retry
loop as a success after that single attempt.  A truly message-less,
exception-less attempt is instead classified as a retryable failure and
consumes a back-off sleep before the next attempt. -/
theorem C2_clean_exit_yields_result (o : CodexOptions) (pb : ProcBehavior)
    (k : ℕ) (d : ℚ) (rest : List AttemptOutcome) (n : ℕ)
    (hf : pb.findCliError = none) (hs : pb.spawnError = none)
    (hp : (processLines pb.decode pb.lines).2 = none)
    (ht : pb.timedOut = false) (hr : pb.returncode = 0) (hn : n < k + 1) :
    (execute_async o pb).msgs ≠ [] ∧
    (execute_async o pb).exc = none ∧
    runRetry k d (execute_async o pb :: rest) n =
      ⟨(execute_async o pb).msgs, none, n, []⟩ ∧
    runRetry k d (⟨[], none⟩ :: rest) n =
      ⟨(runRetry k d rest (n + 1)).yielded, (runRetry k d rest (n + 1)).raised,
        (runRetry k d rest (n + 1)).attemptsUsed,
        sendQueryWait d n :: (runRetry k d rest (n + 1)).delays⟩ := by
  have hx : execute_async o pb =
      ⟨(processLines pb.decode pb.lines).1 ++
        [.result { duration := some pb.duration, session_id := some "codex" }], none⟩ := by
    unfold execute_async
    rw [hf, hs]
    rcases hPL : processLines pb.decode pb.lines with ⟨ms, pyexc⟩
    rw [hPL] at hp
    simp only at hp
    subst hp
    simp [ht, hr]
  refine ⟨?_, ?_, ?_, ?_⟩
  · simp [hx]
  · simp [hx]
  · rw [hx]
    unfold runRetry
    simp
  · conv_lhs => rw [runRetry]
    simp [if_neg (by omega : ¬ k + 1 ≤ n)]

/-- Witness for `C2_clean_exit_yields_result`: the default
`ProcBehavior` (no stdout lines, exit status 0) with the retry loop at
attempt 1 of 4. -/
theorem C2_witness :
    (execute_async {} {}).msgs ≠ [] ∧
    (execute_async {} {}).exc = none ∧
    runRetry 3 1 (execute_async {} {} :: []) 1 =
      ⟨(execute_async {} {}).msgs, none, 1, []⟩ ∧
    runRetry 3 1 (⟨[], none⟩ :: []) 1 =
      ⟨(runRetry 3 1 [] 2).yielded, (runRetry 3 1 [] 2).raised,
        (runRetry 3 1 [] 2).attemptsUsed,
        sendQueryWait 1 1 :: (runRetry 3 1 [] 2).delays⟩ :=
  C2_clean_exit_yields_result {} {} 3 1 [] 1 rfl rfl rfl rfl rfl (by omega)

/-- **C3.** If the retry policy disables retries (`no_retry` set, or
`retry_count ≤ 0`), `send_query` performs exactly one attempt regardless
of the configured attempt count, never lets an exception escape, and a
raised error is surfaced as the attempt's yielded messages followed by a
single error `ResultMessage`. -/
theorem C3_no_retry_single_attempt (o : CodexOptions) (a : AttemptOutcome)
    (rest : List AttemptOutcome) (h : o.no_retry = true ∨ o.retry_count ≤ 0) :
    (sendQuery o (a :: rest)).attemptsUsed = 1 ∧
    (sendQuery o (a :: rest)).raised = none ∧
    (∀ e, a.exc = some e →
      (sendQuery o (a :: rest)).yielded = a.msgs ++ [errorResultMsg e.message]) ∧
    (a.exc = none → (sendQuery o (a :: rest)).yielded = a.msgs) := by
  unfold sendQuery
  rw [if_pos h]
  rcases hexc : a.exc with _ | e <;> simp [hexc]

/-- Witness for `C3_no_retry_single_attempt`: `no_retry = true` with a
failing attempt yields exactly one error `ResultMessage`. -/
theorem C3_witness :
    (sendQuery { no_retry := true }
      [⟨[], some ⟨.transportError, "spawn failed"⟩⟩]).attemptsUsed = 1 ∧
    (sendQuery { no_retry := true }
      [⟨[], some ⟨.transportError, "spawn failed"⟩⟩]).raised = none ∧
    (sendQuery { no_retry := true }
      [⟨[], some ⟨.transportError, "spawn failed"⟩⟩]).yielded =
      [errorResultMsg "spawn failed"] := by
  have h := C3_no_retry_single_attempt { no_retry := true }
    ⟨[], some ⟨.transportError, "spawn failed"⟩⟩ [] (Or.inl rfl)
  exact ⟨h.1, h.2.1, h.2.2.1 _ rfl⟩

/-- **C4 (counterexample).** The claim says at most `retry_count` (= 3
by default) attempts run in total and the delay before attempt `n+1`
equals `retry_delay × 2^n` capped at `retry_delay × 10` (so `2` before
attempt 2 with `retry_delay = 1`).  On the code,
`stop_after_attempt(retry_count + 1)` runs 4 attempts, and tenacity's
`wait_exponential` sleeps `retry_delay × 2^(n-1)`: the recorded delays
are `[1, 2, 4]`, with `1 ≠ 2` before attempt 2. -/
theorem C4_counterexample :
    (sendQuery {} (List.replicate 4
      ⟨[], some ⟨.connectionError, "Connection reset by peer"⟩⟩)).attemptsUsed = 4 ∧
    (sendQuery {} (List.replicate 4
      ⟨[], some ⟨.connectionError, "Connection reset by peer"⟩⟩)).delays = [1, 2, 4] := by
  refine ⟨rfl, ?_⟩
  show [sendQueryWait 1 1, sendQueryWait 1 2, sendQueryWait 1 3] = [1, 2, 4]
  norm_num [sendQueryWait, waitExponential, qMax, qMin]

/-- **C4 (amended).** With retries enabled, `send_query` runs at most
`retry_count + 1` attempts in total, and the delay applied before
attempt `n+1` — applied only after a retryable failure — equals
`max(max(0, retry_delay), min(retry_delay × 2^(n-1), retry_delay × 10))`,
i.e. `retry_delay × 2^(n-1)` clamped between `retry_delay` and
`retry_delay × 10` for positive `retry_delay`. -/
theorem C4_attempt_bound_and_backoff (o : CodexOptions) (atts : List AttemptOutcome)
    (hnr : o.no_retry = false) (hrc : 1 ≤ o.retry_count) :
    (sendQuery o atts).attemptsUsed ≤ o.retry_count.toNat + 1 ∧
    (sendQuery o atts).delays =
      (List.range (sendQuery o atts).delays.length).map
        (fun i => sendQueryWait o.retry_delay (1 + i)) ∧
    (∀ i : ℕ, sendQueryWait o.retry_delay (i + 1) =
      qMax (qMax 0 o.retry_delay)
        (qMin (o.retry_delay * 2 ^ i) (o.retry_delay * 10))) := by
  have hcond : ¬(o.no_retry = true ∨ o.retry_count ≤ 0) := by
    rintro (h | h)
    · simp [hnr] at h
    · omega
  unfold sendQuery
  rw [if_neg hcond]
  exact ⟨runRetry_attemptsUsed_le _ _ _ _ (by omega),
    runRetry_delays_eq _ _ _ _,
    fun i => by simp [sendQueryWait, waitExponential]⟩

/-- Witness for `C4_attempt_bound_and_backoff` on a run of four
timeout failures with the default options. -/
theorem C4_witness :
    (sendQuery {} (List.replicate 4
      ⟨[], some ⟨.asyncioTimeout, "Request timed out"⟩⟩)).attemptsUsed ≤ 4 ∧
    (sendQuery {} (List.replicate 4
      ⟨[], some ⟨.asyncioTimeout, "Request timed out"⟩⟩)).delays =
      (List.range (sendQuery {} (List.replicate 4
        ⟨[], some ⟨.asyncioTimeout, "Request timed out"⟩⟩)).delays.length).map
        (fun i => sendQueryWait 1 (1 + i)) := by
  have h := C4_attempt_bound_and_backoff {} (List.replicate 4
    ⟨[], some ⟨.asyncioTimeout, "Request timed out"⟩⟩) rfl (by decide)
  exact ⟨h.1, h.2.1⟩

/-- **C5 (counterexample).** The claim says a content record whose block
list yields zero surfaceable blocks produces no event at all.  On the
code, a `type == "message"` record whose only block has the unrecognized
tag `"reasoning"` still yields one `CodexMessage` — with an empty block
sequence. -/
theorem C5_counterexample :
    processLine (some (.obj [("type", .str "message"),
        ("content", .arr [.obj [("type", .str "reasoning"),
          ("text", .str "thinking...")]]),
        ("role", .str "assistant")])) "line1" =
      .ok [⟨"assistant", []⟩] := rfl

/-- **C5 (amended).** A structured content record whose block list
produces zero recognized blocks still yields exactly one content event,
whose block sequence is empty — the parser does not suppress the
event. -/
theorem C5_empty_blocks_still_yield (fields : List (String × Json)) (cv : Json)
    (elems : List Json) (line : String)
    (hty : jLookup fields "type" = some (.str "message"))
    (hc : jLookup fields "content" = some cv)
    (he : contentElems cv = .ok elems)
    (hb : parseBlocks elems = .ok []) :
    processLine (some (.obj fields)) line =
      .ok [⟨jStrD fields "role" "assistant", []⟩] := by
  simp only [processLine]
  rw [hty, hc]
  show (do
      let elems ← contentElems cv
      let blocks ← parseBlocks elems
      Except.ok [(⟨jStrD fields "role" "assistant", blocks⟩ : CodexMessage)]) =
    Except.ok [⟨jStrD fields "role" "assistant", []⟩]
  rw [he, exceptBind_ok, hb, exceptBind_ok]

/-- Witness for `C5_empty_blocks_still_yield` at a record whose single
block carries the unrecognized tag `"tool_use"`. -/
theorem C5_witness :
    processLine (some (.obj [("type", Json.str "message"),
        ("content", Json.arr [Json.obj [("type", Json.str "tool_use")]])])) "raw" =
      .ok [⟨"assistant", []⟩] :=
  C5_empty_blocks_still_yield _ _ [Json.obj [("type", Json.str "tool_use")]] _
    rfl rfl rfl rfl

/-- **C6 (counterexample).** The claim says an unrecognized block tag is
preserved as a `TextBlock` holding its serialized form (never silently
dropped), with only echoed-user-input blocks dropped.  On the code, a
block tagged `"user_input"` — and any other unrecognized tag — is
silently skipped: the record below parses to a single `TextBlock "ok"`,
with no trace of the first block. -/
theorem C6_counterexample :
    processLine (some (.obj [("type", .str "message"),
        ("content", .arr [
          .obj [("type", .str "user_input"), ("text", .str "echo me")],
          .obj [("type", .str "output_text"), ("text", .str "ok")]])])) "line2" =
      .ok [⟨"assistant", [.text ⟨"ok"⟩]⟩] := rfl

/-- **C6 (amended).** A block whose tag is not one of `output_text`,
`code`, `error` contributes nothing to the parsed block list — it is
dropped silently, with no special case for echoed user input and no
preservation as a serialized `TextBlock`. -/
theorem C6_unrecognized_block_dropped (bf : List (String × Json))
    (elems : List Json)
    (h : ∀ s, jLookup bf "type" = some (.str s) →
      s ≠ "output_text" ∧ s ≠ "code" ∧ s ≠ "error") :
    parseBlocks (Json.obj bf :: elems) = parseBlocks elems := by
  have hpb : parseBlock (Json.obj bf) = .ok none := by
    simp only [parseBlock]
    split
    · next heq => exact absurd rfl (h _ heq).1
    · next heq => exact absurd rfl (h _ heq).2.1
    · next heq => exact absurd rfl (h _ heq).2.2
    · rfl
  simp only [parseBlocks, hpb]
  cases hpe : parseBlocks elems <;> rfl

/-- Witness for `C6_unrecognized_block_dropped` at the unrecognized tag
`"web_search"`. -/
theorem C6_witness :
    parseBlocks [Json.obj [("type", Json.str "web_search")]] = parseBlocks [] :=
  C6_unrecognized_block_dropped [("type", Json.str "web_search")] [] (by
    intro s hs
    have hs' : some (Json.str "web_search") = some (Json.str s) := hs
    injection hs' with h1
    injection h1 with h2
    subst h2
    exact ⟨by decide, by decide, by decide⟩)

/-- **C7.** A non-empty stdout line for which structured decoding fails
is wrapped verbatim as a single `TextBlock` inside one assistant content
event, with no exception — the plain-text fallback is a supported
path. -/
theorem C7_plain_text_fallback (decode : String → Option Json) (raw : String)
    (h1 : ¬ pyStrip raw = "") (h2 : decode (pyStrip raw) = none) :
    processLines decode [raw] =
      ([.content ⟨"assistant", [.text ⟨pyStrip raw⟩]⟩], none) := by
  have hb : (pyStrip raw == "") = false := beq_eq_false_iff_ne.mpr h1
  simp only [processLines]
  rw [hb, h2]
  simp [processLine, processLines]

/-- Witness for `C7_plain_text_fallback` on the raw line
`"plain output"`. -/
theorem C7_witness :
    processLines (fun _ => none) ["plain output"] =
      ([.content ⟨"assistant", [.text ⟨pyStrip "plain output"⟩]⟩], none) :=
  C7_plain_text_fallback (fun _ => none) "plain output" (by decide) rfl

set_option maxHeartbeats 1600000 in
/-- **C8.** For every prompt and options, `_build_command` ends with the
prompt unconditionally, always contains the quiet flag `-q`, and appends
its flags in the fixed order: model, working directory, action mode,
auto-approve, full-auto, quiet, one `-i` per attachment preserving input
order, then the prompt. -/
theorem C8_command_shape (isFile : Bool) (split : String → List String)
    (cli_path prompt : String) (o : CodexOptions) :
    (build_command isFile split cli_path prompt o).getLast? = some prompt ∧
    "-q" ∈ build_command isFile split cli_path prompt o ∧
    build_command isFile split cli_path prompt o =
      commandHead isFile split cli_path
        ++ (if o.model == "" then [] else ["-m", o.model])
        ++ (match o.working_dir with
            | some wd => if wd == "" then [] else ["-w", wd]
            | none => [])
        ++ (if o.action_mode == "" then [] else ["-a", o.action_mode])
        ++ (if o.auto_approve_everything then
              ["--dangerously-auto-approve-everything"] else [])
        ++ (if o.full_auto then ["--full-auto"] else [])
        ++ ["-q"]
        ++ (match o.images with
            | some imgs => if imgs.isEmpty then [] else imageArgs imgs
            | none => [])
        ++ [prompt] := by
  have hdecomp : build_command isFile split cli_path prompt o =
      commandHead isFile split cli_path
        ++ (if o.model == "" then [] else ["-m", o.model])
        ++ (match o.working_dir with
            | some wd => if wd == "" then [] else ["-w", wd]
            | none => [])
        ++ (if o.action_mode == "" then [] else ["-a", o.action_mode])
        ++ (if o.auto_approve_everything then
              ["--dangerously-auto-approve-everything"] else [])
        ++ (if o.full_auto then ["--full-auto"] else [])
        ++ ["-q"]
        ++ (match o.images with
            | some imgs => if imgs.isEmpty then [] else imageArgs imgs
            | none => [])
        ++ [prompt] := by
    rcases hwd : o.working_dir with _ | wd <;>
      rcases himg : o.images with _ | imgs <;>
      simp only [build_command, hwd, himg] <;>
      split_ifs <;>
      simp [List.append_assoc]
  refine ⟨?_, ?_, hdecomp⟩
  · simp only [build_command]
    exact List.getLast?_concat _
  · rw [hdecomp]
    simp [List.mem_append]

/-- **C9.** `working_dir` and its legacy alias `cwd` resolve to one
effective working directory: the explicit `working_dir` wins whenever it
is set, and when only `cwd` is set the effective working directory is
`cwd` (a field counts as set when it is truthy, i.e. neither `None` nor
empty). -/
theorem C9_cwd_alias (o : CodexOptions) :
    (pyTruthy o.working_dir = true → effective_cwd (post_init o) = o.working_dir) ∧
    (pyTruthy o.working_dir = false → pyTruthy o.cwd = true →
      effective_cwd (post_init o) = o.cwd) := by
  constructor
  · intro h
    simp [post_init, effective_cwd, h]
  · intro h1 h2
    simp [post_init, effective_cwd, h1, h2]

/-- Witness for `C9_cwd_alias`: both fields set resolves to
`working_dir`; only `cwd` set resolves to `cwd`. -/
theorem C9_witness :
    effective_cwd (post_init { working_dir := some "/a", cwd := some "/b" }) =
      some "/a" ∧
    effective_cwd (post_init { cwd := some "/b" }) = some "/b" :=
  ⟨(C9_cwd_alias { working_dir := some "/a", cwd := some "/b" }).1 rfl,
    (C9_cwd_alias { cwd := some "/b" }).2 rfl rfl⟩

/-- **C10.** `to_claif_message` maps the role to `assistant` exactly
when the role string equals `"assistant"` (anything else becomes
`user`), and its content is the per-block renderings joined by a newline
in block order — `TextBlock` text as-is, `CodeBlock` as a
markdown-fenced block with its language, `ErrorBlock` prefixed with
`"Error: "` — with an empty block list producing the empty string. -/
theorem C10_to_claif_message (m : CodexMessage) :
    (to_claif_message m).role =
      (if m.role = "assistant" then MessageRole.assistant else MessageRole.user) ∧
    (to_claif_message m).content =
      String.intercalate "\n" (m.content.map renderBlock) ∧
    (∀ tb : TextBlock, renderBlock (.text tb) = tb.text) ∧
    (∀ cb : CodeBlock,
      renderBlock (.code cb) = "``` " ++ cb.language ++ "\n" ++ cb.content ++ "\n```") ∧
    (∀ eb : ErrorBlock, renderBlock (.error eb) = "Error: " ++ eb.error_message) ∧
    (to_claif_message ⟨m.role, []⟩).content = "" := by
  refine ⟨?_, ?_, fun _ => rfl, fun _ => rfl, fun _ => rfl, rfl⟩
  · simp [to_claif_message]
  · rcases hc : m.content with _ | ⟨b, bs⟩
    · simp only [to_claif_message, hc]
      rfl
    · simp [to_claif_message, hc]
